import Mathlib

/-!
Verification of the connection-lifecycle manager in `src/h1/tls.rs` of the
http-client repository: pooled TLS connection creation (`create`), liveness
probing before reuse (`recycle`), the leased-connection adapter
(`TlsConnWrapper`), and the TLS backend shim (`add_tls`,
`NoCertificateVerification`).

The asynchronous stream `TlsStream<TcpStream>` is embedded as an explicit
state `Conn`: a queue of bytes the peer has sent and not yet been read
(`readable`), whether the peer has closed its side (`closed`), whether the
next poll reports an I/O error (`errorNow`), plus write-side observables.
`Poll` mirrors `futures::task::Poll`; a poll of the stream is a pure function
from the state to an outcome and a successor state.
-/

/-- Mirrors `futures::task::Poll`. -/
inductive Poll (α : Type) : Type
  | ready (a : α)
  | pending
deriving DecidableEq, Repr

/-- The subset of `std::io::ErrorKind` this file needs. -/
inductive IoErrorKind : Type
  | unexpectedEof
  | connectionRefused
  | connectionReset
  | other
deriving DecidableEq, Repr

/-- Mirrors `std::io::Error`: a kind plus a message. -/
structure IoError : Type where
  kind : IoErrorKind
  msg : String
deriving DecidableEq, Repr

/-- Abstract TLS-level error (`rustls::TLSError` / the native backend error). -/
inductive TLSError : Type
  | webPkiError (msg : String)
  | general (msg : String)
deriving DecidableEq, Repr

/-- Modelled from the spec: the crate-level `Error` type (its source file is
outside this corpus slice; only `use crate::Error` appears). The spec (section 7)
gives the taxonomy: `ConnectError` for transport failures, `HandshakeError` for
TLS negotiation failures, `StaleConnectionError` for failures detected during
recycle, each preserving the underlying cause. -/
inductive Error : Type
  | connect (cause : IoError)
  | handshake (cause : TLSError)
  | stale (cause : IoError)
deriving DecidableEq, Repr

/-- Mirrors `std::net::SocketAddr` at the granularity this file uses it
(an opaque resolved address; `create` only passes it on to the TCP connect). -/
structure SocketAddr : Type where
  ip : Nat
  port : Nat
deriving DecidableEq, Repr

/-- State of a `TlsStream<TcpStream>` byte stream, as observed through its
polling interface. `readable` holds bytes the peer sent that have not yet been
consumed by a read; `closed` says the peer has shut down its side (end of
stream once `readable` is drained); `errorNow` makes the next poll report an
I/O error; `written`, `flushed`, `closedByUs` record the write-side effects. -/
structure Conn : Type where
  readable : List Nat
  closed : Bool
  errorNow : Option IoError
  written : List Nat
  flushed : Bool
  closedByUs : Bool
deriving DecidableEq, Repr

/-- `AsyncRead::poll_read` on the stream state: an error state reports the
error; with no pending bytes, a closed peer yields a zero-byte read (EOF) and
an open peer yields `Poll::Pending`; otherwise up to `bufLen` pending bytes are
moved out of the stream into the buffer (returned here as the list of bytes
read). -/
def Conn.poll_read (c : Conn) (bufLen : Nat) :
    Poll (Except IoError (List Nat)) × Conn :=
  match c.errorNow with
  | some e => (Poll.ready (Except.error e), c)
  | none =>
    if c.readable.isEmpty then
      if c.closed then (Poll.ready (Except.ok []), c)
      else (Poll.pending, c)
    else
      (Poll.ready (Except.ok (c.readable.take bufLen)),
        { c with readable := c.readable.drop bufLen })

/-- `AsyncWrite::poll_write` on the stream state: append the buffer to the
bytes written and report its length. -/
def Conn.poll_write (c : Conn) (buf : List Nat) :
    Poll (Except IoError Nat) × Conn :=
  match c.errorNow with
  | some e => (Poll.ready (Except.error e), c)
  | none => (Poll.ready (Except.ok buf.length), { c with written := c.written ++ buf })

/-- `AsyncWrite::poll_flush` on the stream state. -/
def Conn.poll_flush (c : Conn) : Poll (Except IoError Unit) × Conn :=
  match c.errorNow with
  | some e => (Poll.ready (Except.error e), c)
  | none => (Poll.ready (Except.ok ()), { c with flushed := true })

/-- `AsyncWrite::poll_close` on the stream state. -/
def Conn.poll_close (c : Conn) : Poll (Except IoError Unit) × Conn :=
  match c.errorNow with
  | some e => (Poll.ready (Except.error e), c)
  | none => (Poll.ready (Except.ok ()), { c with closedByUs := true })

/-- Mirrors `TlsConnection { host, addr }`. -/
structure TlsConnection : Type where
  host : String
  addr : SocketAddr
deriving DecidableEq, Repr

/-- Mirrors `TlsConnection::new`. -/
def TlsConnection.new (host : String) (addr : SocketAddr) : TlsConnection :=
  { host := host, addr := addr }

/-- Mirrors `Manager::recycle` for `TlsConnection`: probe the idle stream with
one `poll_read` into a fixed 4-byte buffer under a no-op waker.
`Ready(Err(e))` becomes an error; `Ready(Ok(bytes))` with `bytes == 0` becomes
an `UnexpectedEof` error; every other immediate outcome (bytes read, or
`Pending`) returns `Ok(())`. The outer `Poll` is the state of the `async fn`
body itself: the body never awaits, so it is always `ready`. -/
def TlsConnection.recycle (self : TlsConnection) (conn : Conn) :
    Poll (Except Error Unit × Conn) :=
  match Conn.poll_read conn 4 with
  | (Poll.ready (Except.error e), conn1) =>
      Poll.ready (Except.error (Error.stale e), conn1)
  | (Poll.ready (Except.ok buf), conn1) =>
      if buf.length = 0 then
        Poll.ready (Except.error (Error.stale
          (IoError.mk IoErrorKind.unexpectedEof
            "connection appeared to be closed (EoF)")), conn1)
      else Poll.ready (Except.ok (), conn1)
  | (Poll.pending, conn1) => Poll.ready (Except.ok (), conn1)

/-- Mirrors `Manager::create` for `TlsConnection`:
`TcpStream::connect(self.addr).await?` then `add_tls(&self.host, raw).await?`.
The network and the TLS engine are the environment, passed as the functions
`tcpConnect` and `tlsConnect`; connect failures are classified as
`ConnectError` and handshake failures as `HandshakeError` (classification per
the spec, section 7, since the crate-level `Error` source is outside the slice). -/
def TlsConnection.create (self : TlsConnection)
    (tcpConnect : SocketAddr → Except IoError Conn)
    (tlsConnect : String → Conn → Except TLSError Conn) : Except Error Conn :=
  match tcpConnect self.addr with
  | Except.error e => Except.error (Error.connect e)
  | Except.ok raw_stream =>
    match tlsConnect self.host raw_stream with
    | Except.error e => Except.error (Error.handshake e)
    | Except.ok tls_stream => Except.ok tls_stream

/-- One manager step as the pool sees it: `recycle` borrows the endpoint by
shared reference (`&self`), so the endpoint travels through the step unchanged. -/
def managerRecycleStep (s : TlsConnection × Conn) :
    TlsConnection × Poll (Except Error Unit × Conn) :=
  (s.1, TlsConnection.recycle s.1 s.2)

/-- One `create` step as the pool sees it: `create` borrows the endpoint by
shared reference (`&self`), so the endpoint travels through the step unchanged. -/
def managerCreateStep (ep : TlsConnection)
    (tcpConnect : SocketAddr → Except IoError Conn)
    (tlsConnect : String → Conn → Except TLSError Conn) :
    TlsConnection × Except Error Conn :=
  (ep, TlsConnection.create ep tcpConnect tlsConnect)

/-- Mirrors `deadpool::managed::Object` at the granularity the wrapper uses it:
a handle that dereferences to the pooled stream. -/
structure Object : Type where
  obj : Conn
deriving DecidableEq, Repr

/-- Mirrors `TlsConnWrapper { conn: Object<...> }`. -/
structure TlsConnWrapper : Type where
  conn : Object
deriving DecidableEq, Repr

/-- Mirrors `TlsConnWrapper::new`. -/
def TlsConnWrapper.new (conn : Object) : TlsConnWrapper :=
  { conn := conn }

/-- Mirrors `AsyncRead::poll_read` for `TlsConnWrapper`:
`Pin::new(&mut *self.conn).poll_read(cx, buf)`. -/
def TlsConnWrapper.poll_read (w : TlsConnWrapper) (bufLen : Nat) :
    Poll (Except IoError (List Nat)) × TlsConnWrapper :=
  let p := Conn.poll_read w.conn.obj bufLen
  (p.1, { conn := { obj := p.2 } })

/-- Mirrors `AsyncWrite::poll_write` for `TlsConnWrapper`. -/
def TlsConnWrapper.poll_write (w : TlsConnWrapper) (buf : List Nat) :
    Poll (Except IoError Nat) × TlsConnWrapper :=
  let p := Conn.poll_write w.conn.obj buf
  (p.1, { conn := { obj := p.2 } })

/-- Mirrors `AsyncWrite::poll_flush` for `TlsConnWrapper`. -/
def TlsConnWrapper.poll_flush (w : TlsConnWrapper) :
    Poll (Except IoError Unit) × TlsConnWrapper :=
  let p := Conn.poll_flush w.conn.obj
  (p.1, { conn := { obj := p.2 } })

/-- Mirrors `AsyncWrite::poll_close` for `TlsConnWrapper`. -/
def TlsConnWrapper.poll_close (w : TlsConnWrapper) :
    Poll (Except IoError Unit) × TlsConnWrapper :=
  let p := Conn.poll_close w.conn.obj
  (p.1, { conn := { obj := p.2 } })

/-- A peer certificate, abstracted to the two facts a verifier checks:
the hostname it names and whether its chain validates against the trust store. -/
structure Certificate : Type where
  subjectName : String
  chainOk : Bool
deriving DecidableEq, Repr

/-- Mirrors `rustls::ServerCertVerified::assertion()`. -/
inductive ServerCertVerified : Type
  | assertion
deriving DecidableEq, Repr

/-- Mirrors `rustls::RootCertStore` at the granularity used here. -/
structure RootCertStore : Type where
  roots : List Certificate
deriving DecidableEq, Repr

/-- Mirrors `impl ServerCertVerifier for NoCertificateVerification`:
`verify_server_cert` ignores every argument and returns
`Ok(ServerCertVerified::assertion())`. -/
def NoCertificateVerification.verify_server_cert
    (roots : RootCertStore) (presented_certs : List Certificate)
    (dns_name : String) (ocsp : List Nat) : Except TLSError ServerCertVerified :=
  Except.ok ServerCertVerified.assertion

/-- Modelled from the spec: strict verification mode, which must "validate the
peer certificate chain and hostname against a trust store". Stated here for
comparison with the verifier the code actually installs. -/
def strictVerify
    (roots : RootCertStore) (presented_certs : List Certificate)
    (dns_name : String) (ocsp : List Nat) : Except TLSError ServerCertVerified :=
  match presented_certs with
  | [] => Except.error (TLSError.general "no certificate presented")
  | cert :: _ =>
    if cert.chainOk && (cert.subjectName == dns_name) then
      Except.ok ServerCertVerified.assertion
    else Except.error (TLSError.webPkiError "certificate rejected")

/-- Modelled from the spec: the TLS engine contract
`connect(hostname, raw_stream) -> encrypted_stream | HandshakeError`
(its internals are an external collaborator). The handshake submits the peer
certificate chain to the configured verifier; the session is established
exactly when the verifier accepts. -/
def connectorConnect
    (verifier : RootCertStore → List Certificate → String → List Nat →
      Except TLSError ServerCertVerified)
    (roots : RootCertStore) (peerCerts : List Certificate)
    (host : String) (stream : Conn) : Except TLSError Conn :=
  match verifier roots peerCerts host [] with
  | Except.ok _ => Except.ok stream
  | Except.error e => Except.error e

/-- Mirrors `add_tls` in the `rustls_client` build: the client config has its
certificate verifier unconditionally replaced by `NoCertificateVerification`
via `cfg.dangerous().set_certificate_verifier(...)`, and the connector then
performs the handshake with that config. -/
def add_tls (roots : RootCertStore) (peerCerts : List Certificate)
    (host : String) (stream : Conn) : Except TLSError Conn :=
  connectorConnect NoCertificateVerification.verify_server_cert
    roots peerCerts host stream

/-- An empty, open, error-free stream: nothing readable, peer not closed. -/
def emptyConn : Conn :=
  { readable := [], closed := false, errorNow := none,
    written := [], flushed := false, closedByUs := false }

/-- A concrete endpoint used by witnesses. -/
def self0 : TlsConnection := TlsConnection.new "example.com" (SocketAddr.mk 2130706433 443)

/-- An idle stream whose peer has closed its side and sent nothing further. -/
def connClosed : Conn := { emptyConn with closed := true }

/-- An idle stream whose next poll reports a connection-reset error. -/
def connError : Conn :=
  { emptyConn with errorNow := some (IoError.mk IoErrorKind.connectionReset "connection reset by peer") }

/-- An idle stream with one unread byte pending. -/
def connOneByte : Conn := { emptyConn with readable := [42] }

/-- An idle stream with three unread bytes pending (fits in the 4-byte probe). -/
def connSmallBacklog : Conn := { emptyConn with readable := [1, 2, 3] }

/-- A concrete transport-level failure used by the create witness. -/
def refusedErr : IoError := IoError.mk IoErrorKind.connectionRefused "connection refused"

/-- A certificate that validates under no trust store and names another host. -/
def badCert : Certificate := { subjectName := "evil.example", chainOk := false }

/-- An empty trust store. -/
def emptyRoots : RootCertStore := { roots := [] }

/-- Claim C2: for an idle connection whose probe read completes immediately
with exactly zero bytes (peer closed, end of stream), `recycle` returns a
stale-connection error of kind `UnexpectedEof`, so the pool discards the
connection. -/
theorem recycle_stale_on_eof (self : TlsConnection) (c : Conn)
    (hErr : c.errorNow = none) (hEmpty : c.readable = []) (hClosed : c.closed = true) :
    TlsConnection.recycle self c =
      Poll.ready (Except.error (Error.stale
        (IoError.mk IoErrorKind.unexpectedEof
          "connection appeared to be closed (EoF)")), c) := by
  simp [TlsConnection.recycle, Conn.poll_read, hErr, hEmpty, hClosed]

/-- Witness for C2 at a concrete closed idle connection. -/
theorem recycle_stale_on_eof_witness :
    TlsConnection.recycle self0 connClosed =
      Poll.ready (Except.error (Error.stale
        (IoError.mk IoErrorKind.unexpectedEof
          "connection appeared to be closed (EoF)")), connClosed) :=
  recycle_stale_on_eof self0 connClosed rfl rfl rfl

/-- Claim C3: for an idle connection whose probe read would block (no data
pending, peer still open), `recycle` returns success, so the pool may hand the
connection out again. -/
theorem recycle_ok_on_would_block (self : TlsConnection) (c : Conn)
    (hErr : c.errorNow = none) (hEmpty : c.readable = []) (hOpen : c.closed = false) :
    TlsConnection.recycle self c = Poll.ready (Except.ok (), c) := by
  simp [TlsConnection.recycle, Conn.poll_read, hErr, hEmpty, hOpen]

/-- Witness for C3 at a concrete open, silent idle connection. -/
theorem recycle_ok_on_would_block_witness :
    TlsConnection.recycle self0 emptyConn = Poll.ready (Except.ok (), emptyConn) :=
  recycle_ok_on_would_block self0 emptyConn rfl rfl rfl

/-- Claim C4: for an idle connection whose probe read completes immediately
with an I/O error, `recycle` returns a stale-connection error carrying that
underlying I/O error as its cause. -/
theorem recycle_stale_on_error (self : TlsConnection) (c : Conn) (e : IoError)
    (hErr : c.errorNow = some e) :
    TlsConnection.recycle self c = Poll.ready (Except.error (Error.stale e), c) := by
  simp [TlsConnection.recycle, Conn.poll_read, hErr]

/-- Witness for C4 at a concrete erroring idle connection. -/
theorem recycle_stale_on_error_witness :
    TlsConnection.recycle self0 connError =
      Poll.ready (Except.error (Error.stale
        (IoError.mk IoErrorKind.connectionReset "connection reset by peer")), connError) :=
  recycle_stale_on_error self0 connError
    (IoError.mk IoErrorKind.connectionReset "connection reset by peer") rfl

/-- Claim C5: `recycle` never suspends: on every immediate outcome of the
probe poll its async body completes in the same scheduling turn (the outer
`Poll` is always `ready`), and in particular a pending (would-block) probe
under the no-op waker yields an immediate success return. -/
theorem recycle_never_suspends (self : TlsConnection) (c : Conn) :
    (∃ r, TlsConnection.recycle self c = Poll.ready r) ∧
    ((Conn.poll_read c 4).1 = Poll.pending →
      TlsConnection.recycle self c = Poll.ready (Except.ok (), c)) := by
  obtain ⟨r, cl, e, w, f, cb⟩ := c
  cases e with
  | some err => exact ⟨⟨_, rfl⟩, by intro h; simp [Conn.poll_read] at h⟩
  | none =>
    cases r with
    | nil =>
      cases cl with
      | false => exact ⟨⟨_, rfl⟩, fun _ => rfl⟩
      | true => exact ⟨⟨_, rfl⟩, by intro h; simp [Conn.poll_read] at h⟩
    | cons hd tl => exact ⟨⟨_, rfl⟩, by intro h; simp [Conn.poll_read] at h⟩

/-- Witness for C5 at a concrete idle connection whose probe is pending. -/
theorem recycle_never_suspends_witness :
    TlsConnection.recycle self0 emptyConn = Poll.ready (Except.ok (), emptyConn) :=
  (recycle_never_suspends self0 emptyConn).2 rfl

/-- Claim C6 counterexample: `recycle` is not read-preserving. On a connection
with one pending byte the probe consumes it: the bytes readable afterwards
(none) differ from the bytes readable before (the byte 42). -/
theorem recycle_consumes_pending_byte :
    TlsConnection.recycle self0 connOneByte =
      Poll.ready (Except.ok (), { connOneByte with readable := [] }) ∧
    ({ connOneByte with readable := ([] : List Nat) }).readable ≠ connOneByte.readable :=
  ⟨rfl, by decide⟩

/-- Claim C6 (amended): the probe mutates nothing but the readable queue, and
only by removing the bytes it read: on an error outcome the connection is
unchanged, and otherwise the resulting state is the original with up to 4
pending bytes dropped from the front of the readable queue (so a connection
with no pending data is returned unchanged on every outcome). -/
theorem recycle_mutates_only_probe_bytes (self : TlsConnection) (c : Conn) :
    ∃ r, TlsConnection.recycle self c =
      Poll.ready (r, { c with readable :=
        match c.errorNow with
        | some _ => c.readable
        | none => c.readable.drop 4 }) := by
  obtain ⟨r, cl, e, w, f, cb⟩ := c
  cases e with
  | some err => exact ⟨_, rfl⟩
  | none =>
    cases r with
    | nil =>
      cases cl with
      | false => exact ⟨_, rfl⟩
      | true => exact ⟨_, rfl⟩
    | cons hd tl => exact ⟨_, rfl⟩

/-- Claim C7: `create` first opens the TCP connection, and only on success
runs the TLS connect with the endpoint hostname and the raw stream; a
transport failure surfaces as `ConnectError` carrying the I/O cause, a TLS
failure as `HandshakeError`, and a returned connection implies both steps
succeeded (so no partial connection is ever returned on a failure path). -/
theorem create_sequencing_and_classification (self : TlsConnection)
    (tcpConnect : SocketAddr → Except IoError Conn)
    (tlsConnect : String → Conn → Except TLSError Conn) :
    (∀ e, tcpConnect self.addr = Except.error e →
      TlsConnection.create self tcpConnect tlsConnect = Except.error (Error.connect e)) ∧
    (∀ raw e, tcpConnect self.addr = Except.ok raw →
      tlsConnect self.host raw = Except.error e →
      TlsConnection.create self tcpConnect tlsConnect = Except.error (Error.handshake e)) ∧
    (∀ s, TlsConnection.create self tcpConnect tlsConnect = Except.ok s →
      ∃ raw, tcpConnect self.addr = Except.ok raw ∧ tlsConnect self.host raw = Except.ok s) := by
  refine ⟨?_, ?_, ?_⟩
  · intro e he
    simp [TlsConnection.create, he]
  · intro raw e hraw htls
    simp [TlsConnection.create, hraw, htls]
  · intro s hs
    unfold TlsConnection.create at hs
    cases htcp : tcpConnect self.addr with
    | error e => simp [htcp] at hs
    | ok raw =>
      cases htls : tlsConnect self.host raw with
      | error e => simp [htcp, htls] at hs
      | ok s2 =>
        simp [htcp, htls] at hs
        exact ⟨raw, rfl, hs ▸ htls⟩

/-- Witness for C7: a refused TCP connect surfaces as `ConnectError`. -/
theorem create_sequencing_and_classification_witness :
    TlsConnection.create self0 (fun _ => Except.error refusedErr)
      (fun _ s => Except.ok s) = Except.error (Error.connect refusedErr) :=
  (create_sequencing_and_classification self0 (fun _ => Except.error refusedErr)
    (fun _ s => Except.ok s)).1 refusedErr rfl

/-- Claim C8: the leased-connection adapter delegates read, write, flush and
close to the inner pooled connection unchanged: each wrapper operation returns
exactly the inner operation result on the same arguments, and its resulting
state wraps exactly the inner resulting stream state. -/
theorem tlsConnWrapper_delegates (w : TlsConnWrapper) (bufLen : Nat) (buf : List Nat) :
    (TlsConnWrapper.poll_read w bufLen =
      ((Conn.poll_read w.conn.obj bufLen).1,
        TlsConnWrapper.new (Object.mk (Conn.poll_read w.conn.obj bufLen).2))) ∧
    (TlsConnWrapper.poll_write w buf =
      ((Conn.poll_write w.conn.obj buf).1,
        TlsConnWrapper.new (Object.mk (Conn.poll_write w.conn.obj buf).2))) ∧
    (TlsConnWrapper.poll_flush w =
      ((Conn.poll_flush w.conn.obj).1,
        TlsConnWrapper.new (Object.mk (Conn.poll_flush w.conn.obj).2))) ∧
    (TlsConnWrapper.poll_close w =
      ((Conn.poll_close w.conn.obj).1,
        TlsConnWrapper.new (Object.mk (Conn.poll_close w.conn.obj).2))) :=
  ⟨rfl, rfl, rfl, rfl⟩

/-- Claim C9: for an idle connection with between 1 and 4 pending bytes, the
probe (whose buffer is a fixed 4 bytes) reads them all, `recycle` returns
success, and those bytes are removed from the readable stream and discarded. -/
theorem recycle_ok_consumes_small_backlog (self : TlsConnection) (c : Conn)
    (hErr : c.errorNow = none) (hNe : c.readable ≠ []) (hLe : c.readable.length ≤ 4) :
    TlsConnection.recycle self c = Poll.ready (Except.ok (), { c with readable := [] }) := by
  obtain ⟨r, cl, e, w, f, cb⟩ := c
  simp only at hErr hNe hLe
  subst hErr
  cases r with
  | nil => exact absurd rfl hNe
  | cons hd tl =>
    have hdrop : (hd :: tl).drop 4 = [] := List.drop_eq_nil_of_le hLe
    simp [TlsConnection.recycle, Conn.poll_read, hdrop]

/-- Witness for C9 at a concrete connection with a 3-byte backlog. -/
theorem recycle_ok_consumes_small_backlog_witness :
    TlsConnection.recycle self0 connSmallBacklog =
      Poll.ready (Except.ok (), { connSmallBacklog with readable := [] }) :=
  recycle_ok_consumes_small_backlog self0 connSmallBacklog rfl (by decide) (by decide)

/-- Claim C10: a `TlsConnection` endpoint is immutable: `new` stores exactly
the hostname and address given to it, and `create` and `recycle`, which borrow
the endpoint by shared reference, pass it through the manager step unchanged. -/
theorem tlsConnection_immutable (h : String) (a : SocketAddr)
    (ep : TlsConnection) (c : Conn)
    (tcpConnect : SocketAddr → Except IoError Conn)
    (tlsConnect : String → Conn → Except TLSError Conn) :
    (TlsConnection.new h a).host = h ∧ (TlsConnection.new h a).addr = a ∧
    (managerRecycleStep (ep, c)).1 = ep ∧
    (managerCreateStep ep tcpConnect tlsConnect).1 = ep :=
  ⟨rfl, rfl, rfl, rfl⟩

/-- Claim C1 counterexample: in the rustls_client build, a peer certificate
whose chain does not validate and whose name is for a different host is
rejected by strict verification, yet `create` with the rustls `add_tls`
succeeds instead of failing with a handshake error, because `add_tls`
installs `NoCertificateVerification` unconditionally. -/
theorem create_rustls_accepts_invalid_cert :
    strictVerify emptyRoots [badCert] "example.com" [] =
      Except.error (TLSError.webPkiError "certificate rejected") ∧
    TlsConnection.create self0 (fun _ => Except.ok emptyConn)
      (add_tls emptyRoots [badCert]) = Except.ok emptyConn :=
  ⟨rfl, rfl⟩

/-- Claim C1 (amended): in the rustls_client build, skip-verification is the
unconditional default: `add_tls` always installs `NoCertificateVerification`,
whose `verify_server_cert` accepts every presented chain for every hostname,
so the handshake of `add_tls` succeeds for every certificate the peer
presents. -/
theorem add_tls_unconditionally_permissive
    (roots : RootCertStore) (peerCerts : List Certificate)
    (host : String) (stream : Conn) :
    add_tls roots peerCerts host stream = Except.ok stream ∧
    NoCertificateVerification.verify_server_cert roots peerCerts host [] =
      Except.ok ServerCertVerified.assertion :=
  ⟨rfl, rfl⟩
